import Mathlib

/-!
Verification development for the galera GCS public API (`gcs/src/gcs.h`)
and the FNV hash utilities (`galerautils/src/gu_fnv.h`).

Bytes are modelled as natural numbers below 256, buffers as `List Nat`,
machine integers as `Nat`/`Int` with explicit reduction modulo powers
of two at the points where the C code truncates.
-/

/-! ## FNV hash functions, embedded from `galerautils/src/gu_fnv.h` -/

/-- `GU_FNV32_PRIME` from gu_fnv.h line 29. -/
def GU_FNV32_PRIME : Nat := 16777619

/-- `GU_FNV32_SEED` from gu_fnv.h line 30. -/
def GU_FNV32_SEED : Nat := 2166136261

/-- `GU_FNV64_PRIME` from gu_fnv.h line 65. -/
def GU_FNV64_PRIME : Nat := 1099511628211

/-- `GU_FNV64_SEED` from gu_fnv.h line 66. -/
def GU_FNV64_SEED : Nat := 14695981039346656037

/-- `GU_FNV128_PRIME` from gu_fnv.h lines 104-105:
`((uint128_t)0x0000000001000000 << 64) + 0x13B`. -/
def GU_FNV128_PRIME : Nat := 0x0000000001000000 * 2 ^ 64 + 0x13B

/-- `GU_FNV128_SEED` from gu_fnv.h lines 107-108. -/
def GU_FNV128_SEED : Nat := 0x6C62272E07BB0142 * 2 ^ 64 + 0x62B821756295C58D

/-- `GU_FNV32_ITERATION(_s,_b)`: `_s ^= _b; _s *= GU_FNV32_PRIME`
on a `uint32_t`, so the product is truncated modulo 2^32
(gu_fnv.h lines 33, 40). -/
def GU_FNV32_ITERATION (s b : Nat) : Nat :=
  ((s ^^^ b) * GU_FNV32_PRIME) % 2 ^ 32

/-- `GU_FNV64_ITERATION(_s,_b)`: `_s ^= _b; _s *= GU_FNV64_PRIME`
on a `uint64_t` (gu_fnv.h lines 69, 76). -/
def GU_FNV64_ITERATION (s b : Nat) : Nat :=
  ((s ^^^ b) * GU_FNV64_PRIME) % 2 ^ 64

/-- `GU_FNV128_ITERATION(_s,_b)`: `_s ^= _b; _s *= GU_FNV128_PRIME`
on a `uint128_t` (gu_fnv.h lines 111, 118). -/
def GU_FNV128_ITERATION (s b : Nat) : Nat :=
  ((s ^^^ b) * GU_FNV128_PRIME) % 2 ^ 128

/-- The 2-way unrolled loop of `gu_fnv32a` (gu_fnv.h lines 51-55):
`while (bp <= be - 2)` performs two iterations per round; the returned
list is the unconsumed tail (`bp` relative to `be`). -/
def fnv32_loop2 : Nat → List Nat → Nat × List Nat
  | s, b0 :: b1 :: rest =>
      fnv32_loop2 (GU_FNV32_ITERATION (GU_FNV32_ITERATION s b0) b1) rest
  | s, rest => (s, rest)

/-- `gu_fnv32a(buf, len, seed)` (gu_fnv.h lines 45-63): the 2-way
unrolled loop followed by the single leftover iteration
(`if (bp < be)`).  Returns the final seed together with the bytes left
unconsumed (the code asserts this is empty: `assert(be == bp)`). -/
def gu_fnv32a (s : Nat) (buf : List Nat) : Nat × List Nat :=
  match fnv32_loop2 s buf with
  | (s1, b :: rest) => (GU_FNV32_ITERATION s1 b, rest)
  | (s1, []) => (s1, [])

/-- The 2-way unrolled loop of `gu_fnv64a` (gu_fnv.h lines 87-91). -/
def fnv64_loop2 : Nat → List Nat → Nat × List Nat
  | s, b0 :: b1 :: rest =>
      fnv64_loop2 (GU_FNV64_ITERATION (GU_FNV64_ITERATION s b0) b1) rest
  | s, rest => (s, rest)

/-- `gu_fnv64a(buf, len, seed)` (gu_fnv.h lines 81-99). -/
def gu_fnv64a (s : Nat) (buf : List Nat) : Nat × List Nat :=
  match fnv64_loop2 s buf with
  | (s1, b :: rest) => (GU_FNV64_ITERATION s1 b, rest)
  | (s1, []) => (s1, [])

/-- The 8-way unrolled loop of `gu_fnv128a` (gu_fnv.h lines 130-140):
`while (bp <= be - 8)` performs eight iterations per round. -/
def fnv128_loop8 : Nat → List Nat → Nat × List Nat
  | s, b0 :: b1 :: b2 :: b3 :: b4 :: b5 :: b6 :: b7 :: rest =>
      fnv128_loop8
        (GU_FNV128_ITERATION (GU_FNV128_ITERATION (GU_FNV128_ITERATION
          (GU_FNV128_ITERATION (GU_FNV128_ITERATION (GU_FNV128_ITERATION
            (GU_FNV128_ITERATION (GU_FNV128_ITERATION s b0) b1) b2) b3)
              b4) b5) b6) b7) rest
  | s, rest => (s, rest)

/-- The 4-way stage of `gu_fnv128a` (gu_fnv.h lines 142-148):
`if (bp <= be - 4)` performs four iterations once. -/
def fnv128_step4 : Nat × List Nat → Nat × List Nat
  | (s, b0 :: b1 :: b2 :: b3 :: rest) =>
      (GU_FNV128_ITERATION (GU_FNV128_ITERATION
        (GU_FNV128_ITERATION (GU_FNV128_ITERATION s b0) b1) b2) b3, rest)
  | p => p

/-- The 2-way stage of `gu_fnv128a` (gu_fnv.h lines 150-154):
`if (bp <= be - 2)` performs two iterations once. -/
def fnv128_step2 : Nat × List Nat → Nat × List Nat
  | (s, b0 :: b1 :: rest) =>
      (GU_FNV128_ITERATION (GU_FNV128_ITERATION s b0) b1, rest)
  | p => p

/-- The final single-byte stage of `gu_fnv128a` (gu_fnv.h lines
156-159): `if (bp < be)` performs one iteration. -/
def fnv128_step1 : Nat × List Nat → Nat × List Nat
  | (s, b0 :: rest) => (GU_FNV128_ITERATION s b0, rest)
  | p => p

/-- `gu_fnv128a(buf, len, seed)` (gu_fnv.h lines 123-162): the 8-way
unrolled loop, then the 4-way, 2-way and 1-way stages in that order.
The code asserts the remaining tail is empty: `assert(be == bp)`. -/
def gu_fnv128a (s : Nat) (buf : List Nat) : Nat × List Nat :=
  fnv128_step1 (fnv128_step2 (fnv128_step4 (fnv128_loop8 s buf)))

/-- The naive per-byte FNV-1a fold at width 32, written from the
specification: `seed := (seed XOR byte) * GU_FNV32_PRIME mod 2^32`,
applied to each byte of the buffer in order. -/
def fnv32a_naive (s : Nat) (buf : List Nat) : Nat :=
  buf.foldl (fun a b => ((a ^^^ b) * GU_FNV32_PRIME) % 2 ^ 32) s

/-- The naive per-byte FNV-1a fold at width 64, written from the
specification: `seed := (seed XOR byte) * GU_FNV64_PRIME mod 2^64`. -/
def fnv64a_naive (s : Nat) (buf : List Nat) : Nat :=
  buf.foldl (fun a b => ((a ^^^ b) * GU_FNV64_PRIME) % 2 ^ 64) s

/-- The naive per-byte FNV-1a fold at width 128, written from the
specification: `seed := (seed XOR byte) * GU_FNV128_PRIME mod 2^128`. -/
def fnv128a_naive (s : Nat) (buf : List Nat) : Nat :=
  buf.foldl (fun a b => ((a ^^^ b) * GU_FNV128_PRIME) % 2 ^ 128) s

/-! ## GCS public constants and types, embedded from `gcs/src/gcs.h` -/

/-- `gcs_seqno_t`: 64-bit signed sequence number (gcs.h line 23). -/
abbrev gcs_seqno_t := Int

/-- `GCS_SEQNO_ILL`: illegal sequence number, action not serialized
(gcs.h line 26). -/
def GCS_SEQNO_ILL : gcs_seqno_t := -1

/-- `GCS_SEQNO_NIL`: empty state, no actions applied (gcs.h line 28). -/
def GCS_SEQNO_NIL : gcs_seqno_t := 0

/-- `GCS_SEQNO_FIRST`: start of the sequence (gcs.h line 30). -/
def GCS_SEQNO_FIRST : gcs_seqno_t := 1

/-- `GCS_UUID_LEN` (gcs.h line 32). -/
def GCS_UUID_LEN : Nat := 16

/-- `GCS_MEMBER_NAME_MAX` (gcs.h line 275). -/
def GCS_MEMBER_NAME_MAX : Nat := 40

/-- `GCS_DEFAULT_PKT_SIZE` (gcs.h line 271). -/
def GCS_DEFAULT_PKT_SIZE : Nat := 64500

/-- `gcs_act_type_t` (gcs.h lines 130-144). -/
inductive gcs_act_type_t where
  | GCS_ACT_TORDERED
  | GCS_ACT_COMMIT_CUT
  | GCS_ACT_STATE_REQ
  | GCS_ACT_CONF
  | GCS_ACT_JOIN
  | GCS_ACT_SYNC
  | GCS_ACT_FLOW
  | GCS_ACT_SERVICE
  | GCS_ACT_ERROR
  | GCS_ACT_UNKNOWN
deriving DecidableEq, Repr

/-- `gcs_act_conf_t` (gcs.h lines 277-285), with the trailing flexible
`char data[0]` member array modelled as an owned list of member
identifiers (byte strings), as the null-terminated IDs it holds. -/
structure gcs_act_conf_t where
  seqno : gcs_seqno_t
  conf_id : gcs_seqno_t
  group_uuid : List Nat
  st_required : Bool
  memb_num : Int
  my_idx : Int
  data : List (List Nat)
deriving DecidableEq, Repr

/-! ## Delivery model

The implementation behind the `gcs.h` declarations (`gcs.c`) is not part
of the given sources, so the delivery behaviour of `gcs_recv` is
modelled from the specification. -/

/-- Modelled from the spec: the record `gcs_recv` fills in for one
delivered action (missing implementation: `gcs_recv` in gcs.c) —
action type, global action ID `act_id`, local action ID
`local_act_id`, and, for `GCS_ACT_CONF` actions, the configuration ID
of the view being delivered. -/
structure GcsDelivered where
  act_type : gcs_act_type_t
  act_id : gcs_seqno_t
  local_act_id : gcs_seqno_t
  conf_id : gcs_seqno_t
deriving DecidableEq, Repr

/-- Modelled from the spec: the per-node Sequencer state (missing
implementation: gcs.c) — last assigned local seqno, last assigned
global seqno, and whether the current view is primary. -/
structure GcsNodeState where
  localSeqno : gcs_seqno_t
  globalSeqno : gcs_seqno_t
  primary : Bool
deriving DecidableEq, Repr

/-- Modelled from the spec: one input to the delivery path (missing
implementation: gcs.c) — either a completed action of some type, or a
transport view-change event carrying the new view's primary status and
configuration number. -/
inductive GcsEvent where
  | act (t : gcs_act_type_t)
  | view (primary : Bool) (confNum : Nat)
deriving DecidableEq, Repr

/-- Modelled from the spec: delivery of a single event through the
Sequencer and View Manager (missing implementation: gcs.c).  Every
delivered action, of every type, is assigned the next local seqno in
strict order.  A view change is delivered as a `GCS_ACT_CONF` action
whose `conf_id` is the configuration number if the view is primary and
−1 otherwise.  Only `GCS_ACT_TORDERED` actions delivered while the
view is primary receive a global seqno; otherwise `act_id` stays
`GCS_SEQNO_ILL`. -/
def gcs_deliver (st : GcsNodeState) (ev : GcsEvent) : GcsNodeState × GcsDelivered :=
  match ev with
  | .view p confNum =>
      ({ st with primary := p, localSeqno := st.localSeqno + 1 },
       { act_type := .GCS_ACT_CONF
         act_id := GCS_SEQNO_ILL
         local_act_id := st.localSeqno + 1
         conf_id := if p then (confNum : Int) else -1 })
  | .act t =>
      if t = gcs_act_type_t.GCS_ACT_TORDERED ∧ st.primary then
        ({ st with localSeqno := st.localSeqno + 1,
                   globalSeqno := st.globalSeqno + 1 },
         { act_type := t
           act_id := st.globalSeqno + 1
           local_act_id := st.localSeqno + 1
           conf_id := GCS_SEQNO_ILL })
      else
        ({ st with localSeqno := st.localSeqno + 1 },
         { act_type := t
           act_id := GCS_SEQNO_ILL
           local_act_id := st.localSeqno + 1
           conf_id := GCS_SEQNO_ILL })

/-- Modelled from the spec: the state of a freshly opened connection
(missing implementation: gcs.c) — no actions delivered yet
(`GCS_SEQNO_NIL`), non-primary until the first view. -/
def gcs_initial : GcsNodeState :=
  { localSeqno := GCS_SEQNO_NIL, globalSeqno := GCS_SEQNO_NIL, primary := false }

/-- Modelled from the spec: a whole run of the delivery path (missing
implementation: gcs.c) — the final state together with the list of
records handed to the application by successive `gcs_recv` calls. -/
def gcs_run : GcsNodeState → List GcsEvent → GcsNodeState × List GcsDelivered
  | st, [] => (st, [])
  | st, ev :: evs =>
      let p := gcs_deliver st ev
      let q := gcs_run p.1 evs
      (q.1, p.2 :: q.2)

/-! ## Fragmenter / Reassembler model -/

/-- Modelled from the spec: the Fragmenter (missing implementation:
gcs.c) — an outgoing action is split into an ordered run of transport
messages of at most `P` bytes: a full `P`-byte fragment is cut off as
long as more than `P` bytes remain, and the remainder is the final
fragment. -/
def gcs_fragment (P : Nat) (bytes : List Nat) : List (List Nat) :=
  if _h : P = 0 ∨ bytes.length ≤ P then [bytes]
  else bytes.take P :: gcs_fragment P (bytes.drop P)
termination_by bytes.length
decreasing_by
  simp only [List.length_drop]
  omega

/-- Modelled from the spec: the Reassembler (missing implementation:
gcs.c) — fragments from one sender arrive in order, so reassembly
concatenates them by arrival order. -/
def gcs_reassemble (frags : List (List Nat)) : List Nat :=
  frags.flatten

/-! ## State transfer coordinator model -/

/-- POSIX `EAGAIN`, the errno behind the retryable condition named in
gcs.h line 228 (`-EAGAIN means try later`). -/
def EAGAIN : Int := 11

/-- Modelled from the spec: the group view the State Transfer
Coordinator selects a donor from (missing implementation: gcs.c) — for
each member index whether that member is currently synced, and the
index of the requesting node itself. -/
structure GcsGroup where
  synced : List Bool
  myIdx : Nat
deriving DecidableEq, Repr

/-- Modelled from the spec: donor selection (missing implementation:
gcs.c) — the first currently-synced member other than the requester,
if any. -/
def gcs_find_donor (g : GcsGroup) : Option Nat :=
  (List.range g.synced.length).find? (fun i => i != g.myIdx && g.synced.getD i false)

/-- Modelled from the spec: `gcs_request_state_transfer` (missing
implementation: gcs.c) — returns the index of the selected donor on
success, and the distinguished retryable code `-EAGAIN` when no donor
is currently available. -/
def gcs_request_state_transfer (g : GcsGroup) : Int :=
  match gcs_find_donor g with
  | some i => (i : Int)
  | none => -EAGAIN

/-! ## Flow control monitor model -/

/-- POSIX `EBADFD`, the errno gcs.h line 65 names for a connection
object that is being torn down. -/
def EBADFD : Int := 77

/-- Modelled from the spec: the connection state `gcs_wait` inspects
(missing implementation: gcs.c) — whether the connection is closed or
being torn down, and the Flow Control Monitor's current throttle
flag. -/
structure GcsConn where
  closed : Bool
  fcWaiting : Bool
deriving DecidableEq, Repr

/-- Modelled from the spec: `gcs_wait` (missing implementation: gcs.c)
— returns a negative error code on a dead connection, 1 if wait is
recommended, 0 otherwise, and never mutates the connection state (it
only reports the current throttle state, never blocking by itself). -/
def gcs_wait (c : GcsConn) : Int × GcsConn :=
  if c.closed then (-EBADFD, c)
  else if c.fcWaiting then (1, c)
  else (0, c)

/-! ## CONF payload layout

The wire form of the configuration payload described by
`gcs_act_conf_t` (gcs.h lines 277-285): the fields in declaration
order, 64-bit integers little-endian, the trailing member array as
null-terminated IDs. -/

/-- Little-endian byte encoding of `n` on `w` bytes. -/
def toLE : Nat → Nat → List Nat
  | 0, _ => []
  | w + 1, n => n % 256 :: toLE w (n / 256)

/-- Value of a little-endian byte list. -/
def fromLE : List Nat → Nat
  | [] => 0
  | b :: bs => b + 256 * fromLE bs

/-- Two's-complement encoding of a 64-bit signed integer
(`gcs_seqno_t`, and LP64 `long`), 8 bytes little-endian. -/
def encInt64 (n : Int) : List Nat :=
  toLE 8 (n % 2 ^ 64).toNat

/-- Decoding of an 8-byte little-endian two's-complement integer. -/
def decInt64 (bs : List Nat) : Int :=
  let m := fromLE bs
  if m < 2 ^ 63 then (m : Int) else (m : Int) - 2 ^ 64

/-- One-byte encoding of a C `bool`. -/
def encBool (b : Bool) : List Nat :=
  [if b then 1 else 0]

/-- The trailing `data` member array: each member ID followed by its
terminating null byte (gcs.h line 284: member array, null-terminated
IDs). -/
def encodeMemb (ids : List (List Nat)) : List Nat :=
  (ids.map (fun id => id ++ [0])).flatten

/-- Reads `count` null-terminated member IDs, returning them with the
unconsumed rest of the input. -/
def parseMemb : Nat → List Nat → Option (List (List Nat) × List Nat)
  | 0, bs => some ([], bs)
  | k + 1, bs =>
      let id := bs.takeWhile (fun b => b != 0)
      match bs.drop id.length with
      | 0 :: rest =>
          match parseMemb k rest with
          | some (ids, rest2) => some (id :: ids, rest2)
          | none => none
      | _ => none

/-- Serialization of `gcs_act_conf_t` in field-declaration order
(gcs.h lines 277-285): `seqno`, `conf_id`, `group_uuid`,
`st_required`, `memb_num`, `my_idx`, then the member array. -/
def gcs_act_conf_encode (c : gcs_act_conf_t) : List Nat :=
  encInt64 c.seqno ++ encInt64 c.conf_id ++ c.group_uuid ++
    encBool c.st_required ++ encInt64 c.memb_num ++ encInt64 c.my_idx ++
      encodeMemb c.data

/-- Parser reading the `gcs_act_conf_t` fields back in declaration
order; succeeds only when the whole payload is consumed. -/
def gcs_act_conf_decode (bs : List Nat) : Option gcs_act_conf_t :=
  let seqno := decInt64 (bs.take 8)
  let r1 := bs.drop 8
  let confId := decInt64 (r1.take 8)
  let r2 := r1.drop 8
  let uuid := r2.take GCS_UUID_LEN
  let r3 := r2.drop GCS_UUID_LEN
  match r3 with
  | stByte :: r4 =>
      let membNum := decInt64 (r4.take 8)
      let r5 := r4.drop 8
      let myIdx := decInt64 (r5.take 8)
      let r6 := r5.drop 8
      if 0 ≤ membNum then
        match parseMemb membNum.toNat r6 with
        | some (ids, []) =>
            some { seqno := seqno, conf_id := confId, group_uuid := uuid,
                   st_required := stByte != 0, memb_num := membNum,
                   my_idx := myIdx, data := ids }
        | _ => none
      else none
  | [] => none

/-! ## Lemmas about the FNV loops -/

lemma fnv32a_naive_eq_foldl (s : Nat) (l : List Nat) :
    fnv32a_naive s l = List.foldl GU_FNV32_ITERATION s l := rfl

lemma fnv64a_naive_eq_foldl (s : Nat) (l : List Nat) :
    fnv64a_naive s l = List.foldl GU_FNV64_ITERATION s l := rfl

lemma fnv128a_naive_eq_foldl (s : Nat) (l : List Nat) :
    fnv128a_naive s l = List.foldl GU_FNV128_ITERATION s l := rfl

lemma fnv32_loop2_spec (n : Nat) : ∀ l : List Nat, l.length ≤ n → ∀ s : Nat,
    (fnv32_loop2 s l).2.length ≤ 1 ∧
    List.foldl GU_FNV32_ITERATION (fnv32_loop2 s l).1 (fnv32_loop2 s l).2
      = List.foldl GU_FNV32_ITERATION s l := by
  induction n with
  | zero =>
      intro l hl s
      rcases l with _ | ⟨b, l⟩
      · simp [fnv32_loop2]
      · simp at hl
  | succ n ih =>
      intro l hl s
      rcases l with _ | ⟨b0, _ | ⟨b1, rest⟩⟩
      · simp [fnv32_loop2]
      · simp [fnv32_loop2]
      · simp only [List.length_cons] at hl
        have h := ih rest (by omega) (GU_FNV32_ITERATION (GU_FNV32_ITERATION s b0) b1)
        simpa [fnv32_loop2] using h

lemma fnv64_loop2_spec (n : Nat) : ∀ l : List Nat, l.length ≤ n → ∀ s : Nat,
    (fnv64_loop2 s l).2.length ≤ 1 ∧
    List.foldl GU_FNV64_ITERATION (fnv64_loop2 s l).1 (fnv64_loop2 s l).2
      = List.foldl GU_FNV64_ITERATION s l := by
  induction n with
  | zero =>
      intro l hl s
      rcases l with _ | ⟨b, l⟩
      · simp [fnv64_loop2]
      · simp at hl
  | succ n ih =>
      intro l hl s
      rcases l with _ | ⟨b0, _ | ⟨b1, rest⟩⟩
      · simp [fnv64_loop2]
      · simp [fnv64_loop2]
      · simp only [List.length_cons] at hl
        have h := ih rest (by omega) (GU_FNV64_ITERATION (GU_FNV64_ITERATION s b0) b1)
        simpa [fnv64_loop2] using h

lemma gu_fnv32a_eq (s : Nat) (l : List Nat) :
    gu_fnv32a s l = (fnv32a_naive s l, []) := by
  obtain ⟨hlen, hfold⟩ := fnv32_loop2_spec l.length l le_rfl s
  rw [fnv32a_naive_eq_foldl]
  rcases hp : fnv32_loop2 s l with ⟨s1, rest⟩
  rw [hp] at hlen hfold
  rcases rest with _ | ⟨b, _ | ⟨c, rest3⟩⟩
  · simp only [List.foldl_nil] at hfold
    simp [gu_fnv32a, hp, hfold]
  · simp only [List.foldl_cons, List.foldl_nil] at hfold
    simp [gu_fnv32a, hp, hfold]
  · simp at hlen
lemma gu_fnv64a_eq (s : Nat) (l : List Nat) :
    gu_fnv64a s l = (fnv64a_naive s l, []) := by
  obtain ⟨hlen, hfold⟩ := fnv64_loop2_spec l.length l le_rfl s
  rw [fnv64a_naive_eq_foldl]
  rcases hp : fnv64_loop2 s l with ⟨s1, rest⟩
  rw [hp] at hlen hfold
  rcases rest with _ | ⟨b, _ | ⟨c, rest3⟩⟩
  · simp only [List.foldl_nil] at hfold
    simp [gu_fnv64a, hp, hfold]
  · simp only [List.foldl_cons, List.foldl_nil] at hfold
    simp [gu_fnv64a, hp, hfold]
  · simp at hlen

lemma fnv128_loop8_spec (n : Nat) : ∀ l : List Nat, l.length ≤ n → ∀ s : Nat,
    (fnv128_loop8 s l).2.length ≤ 7 ∧
    List.foldl GU_FNV128_ITERATION (fnv128_loop8 s l).1 (fnv128_loop8 s l).2
      = List.foldl GU_FNV128_ITERATION s l := by
  induction n with
  | zero =>
      intro l hl s
      rcases l with _ | ⟨b, l⟩
      · simp [fnv128_loop8]
      · simp at hl
  | succ n ih =>
      intro l hl s
      rcases l with _ | ⟨b0, _ | ⟨b1, _ | ⟨b2, _ | ⟨b3, _ | ⟨b4, _ |
        ⟨b5, _ | ⟨b6, _ | ⟨b7, rest⟩⟩⟩⟩⟩⟩⟩⟩
      · simp [fnv128_loop8]
      · simp [fnv128_loop8]
      · simp [fnv128_loop8]
      · simp [fnv128_loop8]
      · simp [fnv128_loop8]
      · simp [fnv128_loop8]
      · simp [fnv128_loop8]
      · simp [fnv128_loop8]
      · simp only [List.length_cons] at hl
        have h := ih rest (by omega)
          (GU_FNV128_ITERATION (GU_FNV128_ITERATION (GU_FNV128_ITERATION
            (GU_FNV128_ITERATION (GU_FNV128_ITERATION (GU_FNV128_ITERATION
              (GU_FNV128_ITERATION (GU_FNV128_ITERATION s b0) b1) b2) b3)
                b4) b5) b6) b7)
        simpa [fnv128_loop8] using h

lemma fnv128_step4_foldl (p : Nat × List Nat) :
    List.foldl GU_FNV128_ITERATION (fnv128_step4 p).1 (fnv128_step4 p).2
      = List.foldl GU_FNV128_ITERATION p.1 p.2 := by
  rcases p with ⟨s, _ | ⟨b0, _ | ⟨b1, _ | ⟨b2, _ | ⟨b3, rest⟩⟩⟩⟩⟩ <;>
    simp [fnv128_step4]

lemma fnv128_step2_foldl (p : Nat × List Nat) :
    List.foldl GU_FNV128_ITERATION (fnv128_step2 p).1 (fnv128_step2 p).2
      = List.foldl GU_FNV128_ITERATION p.1 p.2 := by
  rcases p with ⟨s, _ | ⟨b0, _ | ⟨b1, rest⟩⟩⟩ <;> simp [fnv128_step2]

lemma fnv128_step1_foldl (p : Nat × List Nat) :
    List.foldl GU_FNV128_ITERATION (fnv128_step1 p).1 (fnv128_step1 p).2
      = List.foldl GU_FNV128_ITERATION p.1 p.2 := by
  rcases p with ⟨s, _ | ⟨b0, rest⟩⟩ <;> simp [fnv128_step1]

lemma fnv128_step4_length (p : Nat × List Nat) (h : p.2.length ≤ 7) :
    (fnv128_step4 p).2.length ≤ 3 := by
  rcases p with ⟨s, _ | ⟨b0, _ | ⟨b1, _ | ⟨b2, _ | ⟨b3, rest⟩⟩⟩⟩⟩ <;>
    simp_all [fnv128_step4]

lemma fnv128_step2_length (p : Nat × List Nat) (h : p.2.length ≤ 3) :
    (fnv128_step2 p).2.length ≤ 1 := by
  rcases p with ⟨s, _ | ⟨b0, _ | ⟨b1, rest⟩⟩⟩ <;>
    simp_all [fnv128_step2]

lemma fnv128_step1_nil (p : Nat × List Nat) (h : p.2.length ≤ 1) :
    (fnv128_step1 p).2 = [] := by
  rcases p with ⟨s, _ | ⟨b0, rest⟩⟩ <;> simp_all [fnv128_step1]

lemma gu_fnv128a_eq (s : Nat) (l : List Nat) :
    gu_fnv128a s l = (fnv128a_naive s l, []) := by
  obtain ⟨h7, hfold⟩ := fnv128_loop8_spec l.length l le_rfl s
  have h3 := fnv128_step4_length (fnv128_loop8 s l) h7
  have h1 := fnv128_step2_length (fnv128_step4 (fnv128_loop8 s l)) h3
  have h0 := fnv128_step1_nil (fnv128_step2 (fnv128_step4 (fnv128_loop8 s l))) h1
  have hq : List.foldl GU_FNV128_ITERATION (gu_fnv128a s l).1 (gu_fnv128a s l).2
      = List.foldl GU_FNV128_ITERATION s l := by
    unfold gu_fnv128a
    rw [fnv128_step1_foldl, fnv128_step2_foldl, fnv128_step4_foldl, hfold]
  have h0q : (gu_fnv128a s l).2 = [] := h0
  rw [fnv128a_naive_eq_foldl]
  rw [h0q, List.foldl_nil] at hq
  rcases hg : gu_fnv128a s l with ⟨a, r⟩
  rw [hg] at hq h0q
  simp only at hq h0q
  rw [h0q, hq]

/-! ## Claims about the FNV hash functions -/

/-- C8: each of `gu_fnv32a`, `gu_fnv64a` and `gu_fnv128a` is a pure
deterministic function of the input byte sequence and the initial
seed: two runs on equal buffers (equal bytes, hence equal lengths) and
equal seeds produce equal digests, with no dependence on any other
state. -/
theorem fnv_deterministic (buf1 buf2 : List Nat) (s1 s2 : Nat)
    (hb : buf1 = buf2) (hs : s1 = s2) :
    gu_fnv32a s1 buf1 = gu_fnv32a s2 buf2 ∧
    gu_fnv64a s1 buf1 = gu_fnv64a s2 buf2 ∧
    gu_fnv128a s1 buf1 = gu_fnv128a s2 buf2 := by
  subst hb
  subst hs
  exact ⟨rfl, rfl, rfl⟩

/-- Witness for C8 at the buffer `[1, 2, 3]` and the standard seeds. -/
theorem fnv_deterministic_witness :
    gu_fnv32a GU_FNV32_SEED [1, 2, 3] = gu_fnv32a GU_FNV32_SEED [1, 2, 3] ∧
    gu_fnv64a GU_FNV64_SEED [1, 2, 3] = gu_fnv64a GU_FNV64_SEED [1, 2, 3] ∧
    gu_fnv128a GU_FNV128_SEED [1, 2, 3] = gu_fnv128a GU_FNV128_SEED [1, 2, 3] := by
  refine ⟨(fnv_deterministic [1, 2, 3] [1, 2, 3] GU_FNV32_SEED GU_FNV32_SEED rfl rfl).1,
    (fnv_deterministic [1, 2, 3] [1, 2, 3] GU_FNV64_SEED GU_FNV64_SEED rfl rfl).2.1,
    (fnv_deterministic [1, 2, 3] [1, 2, 3] GU_FNV128_SEED GU_FNV128_SEED rfl rfl).2.2⟩

/-- C9: for every buffer and length, the staged loops of `gu_fnv32a`
(2-way), `gu_fnv64a` (2-way) and `gu_fnv128a` (8/4/2/1-way) together
consume exactly all `len` bytes, so the final `assert(be == bp)` of
each function always holds: the modelled unconsumed tail is empty. -/
theorem fnv_loops_consume_all (s : Nat) (buf : List Nat) :
    (gu_fnv32a s buf).2 = [] ∧
    (gu_fnv64a s buf).2 = [] ∧
    (gu_fnv128a s buf).2 = [] := by
  refine ⟨?_, ?_, ?_⟩
  · rw [gu_fnv32a_eq]
  · rw [gu_fnv64a_eq]
  · rw [gu_fnv128a_eq]

/-- C10: for every buffer and every initial seed, the manually
unrolled implementations compute exactly the naive per-byte FNV-1a
folds `seed := (seed XOR byte) * prime mod 2^width`, at widths 32, 64
and 128 with the respective primes. -/
theorem fnv_unrolled_eq_naive (s : Nat) (buf : List Nat) :
    (gu_fnv32a s buf).1 = fnv32a_naive s buf ∧
    (gu_fnv64a s buf).1 = fnv64a_naive s buf ∧
    (gu_fnv128a s buf).1 = fnv128a_naive s buf := by
  refine ⟨?_, ?_, ?_⟩
  · rw [gu_fnv32a_eq]
  · rw [gu_fnv64a_eq]
  · rw [gu_fnv128a_eq]


/-! ## Claims about the delivery model -/

lemma gcs_deliver_local (st : GcsNodeState) (ev : GcsEvent) :
    (gcs_deliver st ev).2.local_act_id = st.localSeqno + 1 ∧
    (gcs_deliver st ev).1.localSeqno = st.localSeqno + 1 := by
  rcases ev with t | ⟨p, cid⟩
  · simp only [gcs_deliver]
    split <;> simp
  · simp [gcs_deliver]

lemma gcs_run_local_ids : ∀ (evs : List GcsEvent) (st : GcsNodeState),
    ((gcs_run st evs).2.map (fun d => d.local_act_id))
      = (List.range evs.length).map (fun i : Nat => st.localSeqno + 1 + (i : Int)) := by
  intro evs
  induction evs with
  | nil => intro st; simp [gcs_run]
  | cons ev evs ih =>
      intro st
      have h := gcs_deliver_local st ev
      simp only [gcs_run, List.map_cons, List.length_cons]
      rw [ih (gcs_deliver st ev).1, h.1, h.2]
      rw [List.range_succ_eq_map, List.map_cons, List.map_map]
      congr 1
      · norm_num
      · apply List.map_congr_left
        intro i _
        simp only [Function.comp]
        push_cast
        ring

/-- Claim C1: on a single node, the local seqnos attached to the
actions delivered to the application through `gcs_recv` form exactly
the sequence `GCS_SEQNO_FIRST, GCS_SEQNO_FIRST + 1, …` — strictly
increasing, gap-free, starting at 1 — over a run of arbitrary events,
hence covering actions of every type. -/
theorem gcs_local_seqnos_gapless (evs : List GcsEvent) :
    ((gcs_run gcs_initial evs).2.map (fun d => d.local_act_id))
      = (List.range evs.length).map (fun i : Nat => GCS_SEQNO_FIRST + (i : Int)) := by
  rw [gcs_run_local_ids]
  apply List.map_congr_left
  intro i _
  simp [gcs_initial, GCS_SEQNO_NIL, GCS_SEQNO_FIRST]

/-- Claim C2: a delivered `CONF` action has `conf_id = −1` exactly
when the view it describes is non-primary; delivering ordinary actions
does not change the recorded view status (so "under that CONF" means
while the flag set by the latest view delivery holds); and a
`TORDERED` action delivered while that view is non-primary carries no
global seqno — its `act_id` stays the `GCS_SEQNO_ILL` sentinel. -/
theorem gcs_conf_nonprimary_spec (st : GcsNodeState) :
    (∀ p cid, ((gcs_deliver st (GcsEvent.view p cid)).2.conf_id = -1 ↔ p = false)) ∧
    (∀ p cid, (gcs_deliver st (GcsEvent.view p cid)).2.act_type
                = gcs_act_type_t.GCS_ACT_CONF ∧
              (gcs_deliver st (GcsEvent.view p cid)).1.primary = p) ∧
    (∀ t, (gcs_deliver st (GcsEvent.act t)).1.primary = st.primary) ∧
    (st.primary = false →
      (gcs_deliver st
        (GcsEvent.act gcs_act_type_t.GCS_ACT_TORDERED)).2.act_id = GCS_SEQNO_ILL) := by
  refine ⟨?_, ?_, ?_, ?_⟩
  · intro p cid
    cases p
    · simp [gcs_deliver]
    · simp [gcs_deliver]
  · intro p cid
    cases p <;> simp [gcs_deliver]
  · intro t
    simp only [gcs_deliver]
    split <;> simp
  · intro h
    simp [gcs_deliver, h, GCS_SEQNO_ILL]

/-- Witness for C2 at the freshly opened (non-primary) state: a
`TORDERED` action delivered there gets no global seqno. -/
theorem gcs_conf_nonprimary_witness :
    (gcs_deliver gcs_initial
      (GcsEvent.act gcs_act_type_t.GCS_ACT_TORDERED)).2.act_id = GCS_SEQNO_ILL :=
  (gcs_conf_nonprimary_spec gcs_initial).2.2.2 rfl

/-- Claim C4: the reserved sentinels have the values the spec assigns
— `GCS_SEQNO_ILL = −1`, `GCS_SEQNO_NIL = 0`, `GCS_SEQNO_FIRST = 1` —
and no action delivered in any run is ever assigned local seqno −1 or
0. -/
theorem gcs_seqno_sentinels :
    GCS_SEQNO_ILL = -1 ∧ GCS_SEQNO_NIL = 0 ∧ GCS_SEQNO_FIRST = 1 ∧
    ∀ (evs : List GcsEvent) (d : GcsDelivered),
      d ∈ (gcs_run gcs_initial evs).2 →
      d.local_act_id ≠ GCS_SEQNO_ILL ∧ d.local_act_id ≠ GCS_SEQNO_NIL := by
  refine ⟨rfl, rfl, rfl, ?_⟩
  intro evs d hd
  have hmem : d.local_act_id
      ∈ ((gcs_run gcs_initial evs).2.map (fun x => x.local_act_id)) :=
    List.mem_map_of_mem _ hd
  rw [gcs_run_local_ids] at hmem
  simp only [List.mem_map, List.mem_range] at hmem
  obtain ⟨i, _, hi⟩ := hmem
  rw [← hi]
  constructor <;> intro hc
  · have hc2 : (0 : Int) + 1 + (i : Int) = -1 := hc
    omega
  · have hc2 : (0 : Int) + 1 + (i : Int) = 0 := hc
    omega

/-- Witness for C4: in the one-event run delivering a `SYNC` action,
the delivered record has local seqno 1, which is neither −1 nor 0. -/
theorem gcs_seqno_sentinels_witness :
    ({ act_type := gcs_act_type_t.GCS_ACT_SYNC, act_id := -1,
       local_act_id := 1, conf_id := -1 } : GcsDelivered).local_act_id
        ≠ GCS_SEQNO_ILL ∧
    ({ act_type := gcs_act_type_t.GCS_ACT_SYNC, act_id := -1,
       local_act_id := 1, conf_id := -1 } : GcsDelivered).local_act_id
        ≠ GCS_SEQNO_NIL :=
  gcs_seqno_sentinels.2.2.2 [GcsEvent.act gcs_act_type_t.GCS_ACT_SYNC] _ (by decide)

/-! ## Claims about fragmentation, state transfer and flow control -/

lemma gcs_fragment_flatten (P : Nat) (bytes : List Nat) :
    (gcs_fragment P bytes).flatten = bytes := by
  induction bytes using gcs_fragment.induct P with
  | case1 bytes h =>
      rw [gcs_fragment]
      simp [h]
  | case2 bytes h ih =>
      rw [gcs_fragment]
      simp only [dif_neg h, List.flatten_cons, ih]
      exact List.take_append_drop P bytes

lemma gcs_fragment_sizes (P : Nat) (bytes : List Nat) (hP : 0 < P) :
    ∀ f ∈ gcs_fragment P bytes, f.length ≤ P := by
  induction bytes using gcs_fragment.induct P with
  | case1 bytes h =>
      intro f hf
      rw [gcs_fragment, dif_pos h] at hf
      simp at hf
      subst hf
      rcases h with h | h
      · omega
      · exact h
  | case2 bytes h ih =>
      intro f hf
      rw [gcs_fragment, dif_neg h] at hf
      simp only [List.mem_cons] at hf
      rcases hf with hf | hf
      · simp [hf]
      · exact ih f hf

/-- Claim C3: for every action payload and every positive packet size
`P`, fragmenting the action into transport messages of at most `P`
bytes and reassembling the fragments in arrival order reproduces the
original byte sequence exactly (covering payload sizes from 0 up to
any number of multiples of `P`). -/
theorem gcs_fragment_roundtrip (P : Nat) (bytes : List Nat) (hP : 0 < P) :
    gcs_reassemble (gcs_fragment P bytes) = bytes ∧
    ∀ f ∈ gcs_fragment P bytes, f.length ≤ P :=
  ⟨gcs_fragment_flatten P bytes, gcs_fragment_sizes P bytes hP⟩

/-- Witness for C3 at packet size 2 and a 5-byte payload. -/
theorem gcs_fragment_roundtrip_witness :
    gcs_reassemble (gcs_fragment 2 [1, 2, 3, 4, 5]) = [1, 2, 3, 4, 5] ∧
    ∀ f ∈ gcs_fragment 2 [1, 2, 3, 4, 5], f.length ≤ 2 :=
  gcs_fragment_roundtrip 2 [1, 2, 3, 4, 5] (by decide)

/-- Claim C5: `gcs_request_state_transfer` returns the index of the
selected state-transfer donor on success — a non-negative value naming
a synced member other than the requester — and when no donor is
currently available it returns the distinguished retryable code
`-EAGAIN`, a negative value, rather than a hard failure. -/
theorem gcs_request_state_transfer_spec (g : GcsGroup) :
    (∀ i, gcs_find_donor g = some i →
        gcs_request_state_transfer g = (i : Int) ∧
        0 ≤ gcs_request_state_transfer g ∧
        g.synced.getD i false = true ∧ i ≠ g.myIdx) ∧
    (gcs_find_donor g = none →
        gcs_request_state_transfer g = -EAGAIN ∧ gcs_request_state_transfer g < 0) := by
  constructor
  · intro i hi
    have hi' := hi
    rw [gcs_find_donor] at hi'
    have hp := List.find?_some hi'
    simp only [Bool.and_eq_true, bne_iff_ne, ne_eq, decide_eq_true_eq] at hp
    refine ⟨by simp [gcs_request_state_transfer, hi], ?_, hp.2, hp.1⟩
    simp [gcs_request_state_transfer, hi]
  · intro hn
    constructor
    · simp [gcs_request_state_transfer, hn]
    · simp [gcs_request_state_transfer, hn, EAGAIN]

/-- Witness for C5: a two-member group with a synced peer yields donor
index 1; a group with no synced peer yields `-EAGAIN`. -/
theorem gcs_request_state_transfer_witness :
    (gcs_request_state_transfer { synced := [true, true], myIdx := 0 } = 1 ∧
     0 ≤ gcs_request_state_transfer { synced := [true, true], myIdx := 0 } ∧
     ([true, true] : List Bool).getD 1 false = true ∧ (1 : Nat) ≠ 0) ∧
    (gcs_request_state_transfer { synced := [false, false], myIdx := 0 } = -EAGAIN ∧
     gcs_request_state_transfer { synced := [false, false], myIdx := 0 } < 0) :=
  ⟨(gcs_request_state_transfer_spec { synced := [true, true], myIdx := 0 }).1 1 (by decide),
   (gcs_request_state_transfer_spec { synced := [false, false], myIdx := 0 }).2 (by decide)⟩

/-- Claim C6: `gcs_wait` returns exactly one of three outcomes — a
negative error code, 1 when waiting is recommended, 0 when no wait is
needed — each case characterised by the throttle state it reports, and
it never mutates the connection state (it only reports, never
blocks). -/
theorem gcs_wait_spec (c : GcsConn) :
    ((gcs_wait c).1 < 0 ∨ (gcs_wait c).1 = 1 ∨ (gcs_wait c).1 = 0) ∧
    (gcs_wait c).2 = c ∧
    ((gcs_wait c).1 = 1 ↔ (c.closed = false ∧ c.fcWaiting = true)) ∧
    ((gcs_wait c).1 = 0 ↔ (c.closed = false ∧ c.fcWaiting = false)) ∧
    ((gcs_wait c).1 < 0 ↔ c.closed = true) := by
  rcases c with ⟨cl, fc⟩
  cases cl <;> cases fc <;> decide

/-! ## Claim about the CONF payload layout -/

lemma toLE_length : ∀ (w n : Nat), (toLE w n).length = w := by
  intro w
  induction w with
  | zero => intro n; simp [toLE]
  | succ w ih => intro n; simp [toLE, ih]

lemma fromLE_toLE : ∀ (w n : Nat), fromLE (toLE w n) = n % 2 ^ (8 * w) := by
  intro w
  induction w with
  | zero => intro n; simp [toLE, fromLE]; omega
  | succ w ih =>
      intro n
      simp only [toLE, fromLE, ih]
      have h : 2 ^ (8 * (w + 1)) = 256 * 2 ^ (8 * w) := by
        rw [Nat.mul_succ, pow_add]
        norm_num
        ring
      rw [h, Nat.mod_mul]

lemma encInt64_length (n : Int) : (encInt64 n).length = 8 := by
  simp [encInt64, toLE_length]

lemma decInt64_encInt64 (n : Int) (h1 : -(2 ^ 63) ≤ n) (h2 : n < 2 ^ 63) :
    decInt64 (encInt64 n) = n := by
  have h0 : (0 : Int) < 2 ^ 64 := by norm_num
  have hm0 : 0 ≤ n % 2 ^ 64 := Int.emod_nonneg n (by norm_num)
  have hm1 : n % 2 ^ 64 < 2 ^ 64 := Int.emod_lt_of_pos n h0
  simp only [decInt64, encInt64, fromLE_toLE]
  norm_num
  split <;> omega

lemma takeWhile_append_zero (id rest : List Nat) (h : ∀ b ∈ id, b ≠ 0) :
    (id ++ 0 :: rest).takeWhile (fun b => b != 0) = id := by
  induction id with
  | nil => simp [List.takeWhile]
  | cons a id ih =>
      have ha : a ≠ 0 := h a (by simp)
      simp only [List.cons_append, List.takeWhile_cons]
      have ha2 : (a != 0) = true := by simpa using ha
      rw [ha2]
      simp only [if_true]
      rw [ih (fun b hb => h b (by simp [hb]))]

lemma parseMemb_encodeMemb (ids : List (List Nat))
    (h : ∀ id ∈ ids, ∀ b ∈ id, b ≠ 0) :
    parseMemb ids.length (encodeMemb ids) = some (ids, []) := by
  induction ids with
  | nil => simp [parseMemb, encodeMemb]
  | cons id ids ih =>
      have h1 : ∀ b ∈ id, b ≠ 0 := h id (by simp)
      have h2 : ∀ x ∈ ids, ∀ b ∈ x, b ≠ 0 := fun x hx => h x (by simp [hx])
      have hstep : encodeMemb (id :: ids) = id ++ 0 :: encodeMemb ids := by
        simp [encodeMemb]
      rw [List.length_cons, hstep, parseMemb]
      simp only [takeWhile_append_zero id (encodeMemb ids) h1]
      rw [List.drop_left' rfl]
      simp [ih h2]

/-- Claim C7: the configuration-change payload delivered with a `CONF`
action consists exactly of, in order: the last-applied global seqno,
the configuration id, the 16-byte group UUID, the
state-transfer-required flag, the member count, the receiving node's
own index, and the trailing null-terminated member-identifier listing,
as laid out by `gcs_act_conf_t` — witnessed by the sequential
field-order parser recovering every field from the serialized
payload. -/
theorem gcs_act_conf_layout (c : gcs_act_conf_t)
    (hseq1 : -(2 ^ 63) ≤ c.seqno) (hseq2 : c.seqno < 2 ^ 63)
    (hcid1 : -(2 ^ 63) ≤ c.conf_id) (hcid2 : c.conf_id < 2 ^ 63)
    (hmyx1 : -(2 ^ 63) ≤ c.my_idx) (hmyx2 : c.my_idx < 2 ^ 63)
    (huuid : c.group_uuid.length = GCS_UUID_LEN)
    (hmemb : c.memb_num = (c.data.length : Int))
    (hdlen : (c.data.length : Int) < 2 ^ 63)
    (hids : ∀ id ∈ c.data, ∀ b ∈ id, b ≠ 0) :
    gcs_act_conf_decode (gcs_act_conf_encode c) = some c := by
  obtain ⟨seq, cid, uuid, st, memb, myidx, data⟩ := c
  simp only at hseq1 hseq2 hcid1 hcid2 hmyx1 hmyx2 huuid hmemb hdlen hids
  subst hmemb
  have hd1 : -(2 ^ 63) ≤ (data.length : Int) := by omega
  have h0le : (0 : Int) ≤ (data.length : Int) := by omega
  have e1 : gcs_act_conf_encode
        { seqno := seq, conf_id := cid, group_uuid := uuid, st_required := st,
          memb_num := (data.length : Int), my_idx := myidx, data := data }
      = encInt64 seq ++ (encInt64 cid ++ (uuid ++ (encBool st ++
          (encInt64 (data.length : Int) ++ (encInt64 myidx ++ encodeMemb data))))) := by
    simp [gcs_act_conf_encode, List.append_assoc]
  rw [e1]
  simp only [gcs_act_conf_decode, encBool, List.singleton_append,
    List.take_left' (encInt64_length seq), List.drop_left' (encInt64_length seq),
    List.take_left' (encInt64_length cid), List.drop_left' (encInt64_length cid),
    List.take_left' (encInt64_length (data.length : Int)),
    List.drop_left' (encInt64_length (data.length : Int)),
    List.take_left' (encInt64_length myidx), List.drop_left' (encInt64_length myidx),
    List.take_left' huuid, List.drop_left' huuid,
    decInt64_encInt64 seq hseq1 hseq2, decInt64_encInt64 cid hcid1 hcid2,
    decInt64_encInt64 myidx hmyx1 hmyx2,
    decInt64_encInt64 (data.length : Int) hd1 hdlen,
    if_pos h0le, Int.toNat_natCast,
    parseMemb_encodeMemb data hids]
  cases st <;> simp

/-- Witness for C7: a concrete configuration — seqno 5, primary view
0, a 16-byte UUID, one member named by the single byte 65 — encodes
and decodes back to itself. -/
theorem gcs_act_conf_layout_witness :
    gcs_act_conf_decode (gcs_act_conf_encode
      { seqno := 5, conf_id := 0,
        group_uuid := [0, 1, 2, 3, 4, 5, 6, 7, 8, 9, 10, 11, 12, 13, 14, 15],
        st_required := false, memb_num := 1, my_idx := 0, data := [[65]] })
      = some
      { seqno := 5, conf_id := 0,
        group_uuid := [0, 1, 2, 3, 4, 5, 6, 7, 8, 9, 10, 11, 12, 13, 14, 15],
        st_required := false, memb_num := 1, my_idx := 0, data := [[65]] } :=
  gcs_act_conf_layout _ (by decide) (by decide) (by decide) (by decide)
    (by decide) (by decide) (by decide) (by decide) (by decide) (by decide)
